import Mathlib

/-!
Verification development for the `cellardoor` static-file / WebSocket server
(`src/main.rs`, `src/byte_stream.rs`).  The Rust code is shallowly embedded:
bytes are `Nat` (< 256) in `List Nat`, 32-bit machine arithmetic is `Nat`
arithmetic reduced `% 2^32`, and the effectful request handler `serve_req`
becomes a pure function from a request model plus a filesystem model to an
optional response (with `none` standing for a Rust panic).
-/

namespace Cellardoor

/-! ## Bytes and ASCII strings

`key.as_bytes()` in the source turns header values into bytes; header values
and path strings handled by the claims are ASCII, so a `String` is embedded
as the list of its characters' code points. -/

/-- The bytes of a string (code point per character; exact for ASCII data,
matching `str::as_bytes` on the ASCII strings the server manipulates). -/
def stringBytes (s : String) : List Nat := s.data.map Char.toNat

/-- Rebuild a string from byte values (used for the base64 output, which is
ASCII by construction). -/
def bytesString (l : List Nat) : String := String.mk (l.map Char.ofNat)

/-! ## SHA-1 (the `sha1` crate calls in `serve_req`, main.rs lines 63-66)

`hash.update(key.as_bytes()); hash.update(WEBSOCKET_MAGIC.as_bytes());
hash.digest().bytes()` is SHA-1 of the concatenation of the two byte
strings.  The algorithm is embedded directly (FIPS 180, as the crate
implements it): pad, split into 64-byte blocks, expand each block to 80
32-bit words, run the 80-round compression, output the five state words
big-endian. -/

/-- Truncate to a 32-bit word. -/
def w32 (x : Nat) : Nat := x % 4294967296

/-- Rotate a 32-bit word left by `s` (for `x < 2^32`, `s ≤ 32`). -/
def rotl (s x : Nat) : Nat := (x % 2 ^ (32 - s)) * 2 ^ s + x / 2 ^ (32 - s)

/-- `k` big-endian bytes of `n` (used for the 64-bit length field and the
20-byte digest output). -/
def beBytes : Nat → Nat → List Nat
  | 0, _ => []
  | k + 1, n => beBytes k (n / 256) ++ [n % 256]

/-- Group bytes into 32-bit big-endian words. -/
def toWords : List Nat → List Nat
  | b0 :: b1 :: b2 :: b3 :: rest => (((b0 * 256 + b1) * 256 + b2) * 256 + b3) :: toWords rest
  | _ => []

/-- Message-schedule expansion: append `k` more words, each
`rotl 1 (w[i-3] xor w[i-8] xor w[i-14] xor w[i-16])`. -/
def extendWords (ws : List Nat) : Nat → List Nat
  | 0 => ws
  | k + 1 =>
    extendWords
      (ws ++ [rotl 1 ((ws.getD (ws.length - 3) 0) ^^^ (ws.getD (ws.length - 8) 0) ^^^
        (ws.getD (ws.length - 14) 0) ^^^ (ws.getD (ws.length - 16) 0))]) k

/-- Round function `f_t(b,c,d)` of SHA-1. -/
def fRound (t b c d : Nat) : Nat :=
  if t < 20 then (b &&& c) ||| ((b ^^^ 4294967295) &&& d)
  else if t < 40 then b ^^^ c ^^^ d
  else if t < 60 then (b &&& c) ||| (b &&& d) ||| (c &&& d)
  else b ^^^ c ^^^ d

/-- Round constant `K_t` of SHA-1. -/
def kRound (t : Nat) : Nat :=
  if t < 20 then 1518500249
  else if t < 40 then 1859775393
  else if t < 60 then 2400959708
  else 3395469782

/-- The 80-round compression loop over the expanded schedule. -/
def compress : List Nat → Nat → Nat × Nat × Nat × Nat × Nat → Nat × Nat × Nat × Nat × Nat
  | [], _, st => st
  | w :: ws, t, (a, b, c, d, e) =>
    compress ws (t + 1) (w32 (rotl 5 a + fRound t b c d + e + kRound t + w), a, rotl 30 b, c, d)

/-- Split a byte list into 64-byte blocks (`fuel` bounds the recursion; it is
instantiated with the list length, which suffices). -/
def blocks : Nat → List Nat → List (List Nat)
  | 0, _ => []
  | _, [] => []
  | fuel + 1, m => m.take 64 :: blocks fuel (m.drop 64)

/-- SHA-1 padding: `0x80`, zeros, then the 64-bit big-endian bit length,
reaching a multiple of 64 bytes. -/
def padMessage (m : List Nat) : List Nat :=
  m ++ [128] ++ List.replicate ((64 - (m.length + 9) % 64) % 64) 0 ++ beBytes 8 (m.length * 8)

/-- One block step: expand, compress, add into the running state. -/
def sha1Block (h : Nat × Nat × Nat × Nat × Nat) (block : List Nat) :
    Nat × Nat × Nat × Nat × Nat :=
  let (a, b, c, d, e) := compress (extendWords (toWords block) 64) 0 h
  let (h0, h1, h2, h3, h4) := h
  (w32 (h0 + a), w32 (h1 + b), w32 (h2 + c), w32 (h3 + d), w32 (h4 + e))

/-- SHA-1 digest of a byte string, as its 20 bytes. -/
def sha1 (m : List Nat) : List Nat :=
  let padded := padMessage m
  let final := (blocks padded.length padded).foldl sha1Block
    (1732584193, 4023233417, 2562383102, 271733878, 3285377520)
  let (h0, h1, h2, h3, h4) := final
  beBytes 4 h0 ++ beBytes 4 h1 ++ beBytes 4 h2 ++ beBytes 4 h3 ++ beBytes 4 h4

/-! ## base64 (the `base64::encode` call in `serve_req`) -/

/-- ASCII code of the standard-alphabet base64 digit for `n < 64`. -/
def b64char (n : Nat) : Nat :=
  if n < 26 then 65 + n
  else if n < 52 then 97 + (n - 26)
  else if n < 62 then 48 + (n - 52)
  else if n = 62 then 43
  else 47

/-- Standard base64 encoding with `=` padding, as ASCII byte values. -/
def base64Encode : List Nat → List Nat
  | b0 :: b1 :: b2 :: rest =>
    let x := (b0 * 256 + b1) * 256 + b2
    b64char (x / 262144) :: b64char (x / 4096 % 64) :: b64char (x / 64 % 64) ::
      b64char (x % 64) :: base64Encode rest
  | [b0, b1] =>
    let x := (b0 * 256 + b1) * 256
    [b64char (x / 262144), b64char (x / 4096 % 64), b64char (x / 64 % 64), 61]
  | [b0] =>
    let x := b0 * 65536
    [b64char (x / 262144), b64char (x / 4096 % 64), 61, 61]
  | [] => []

/-- `WEBSOCKET_MAGIC` constant of main.rs. -/
def WEBSOCKET_MAGIC : String := "258EAFA5-E914-47DA-95CA-C5AB0DC85B11"

/-- The accept-token computation inlined in `serve_req` (main.rs lines
63-66): SHA-1 over the key bytes followed by the magic GUID bytes, then
base64 of the raw digest. -/
def computeAcceptToken (key : String) : String :=
  bytesString (base64Encode (sha1 (stringBytes key ++ stringBytes WEBSOCKET_MAGIC)))

/-! ## The chunked reader adapter (`byte_stream.rs`)

`ByteStream::poll` allocates a 1024-byte buffer `[0;1024]`, performs one
`poll_read` into it, and maps the result: `Ok(Ready(0)) ↦ Ready(None)`,
`Ok(Ready(n)) ↦ Ready(Some(Vec::from(&buf[..n])))`, `Ok(NotReady) ↦
NotReady`, `Err(e) ↦ Err(e)`.  A single underlying read is embedded as a
`PollRead` value carrying the count `n` returned by `poll_read` and the
buffer contents after the read; `ByteStream.poll` is the pure mapping. -/

/-- Outcome of one `poll_read` into the 1024-byte buffer: `ready n buf`
(`n` bytes read, `buf` the buffer afterwards), `notReady`, or an I/O
error. -/
inductive PollRead where
  | ready (n : Nat) (buf : List Nat)
  | notReady
  | ioError (e : String)
deriving DecidableEq

/-- One answer of the stream to its consumer: end of stream (`Ready(None)`),
a chunk (`Ready(Some(..))`), not ready, or a terminal error. -/
inductive PollResult where
  | readyNone
  | readySome (chunk : List Nat)
  | notReady
  | err (e : String)
deriving DecidableEq

namespace ByteStream

/-- `ByteStream::poll` (byte_stream.rs lines 15-31) as a function of the one
underlying read it performs. -/
def poll : PollRead → PollResult
  | .ready n buf => if n = 0 then .readyNone else .readySome (buf.take n)
  | .notReady => .notReady
  | .ioError e => .err e

/-- Polling the stream over a trace of underlying reads: each pull consumes
exactly the next read result. -/
def pollN : List PollRead → List PollResult
  | [] => []
  | r :: rest => poll r :: pollN rest

/-- Model of a file source with remaining content `c`: `poll_read` into the
`[0;1024]` buffer returns `min c.length 1024` bytes, the buffer now holding
those bytes followed by the untouched zero fill. -/
def filePollRead (c : List Nat) : PollRead :=
  .ready (min c.length 1024) (c.take 1024 ++ List.replicate (1024 - min c.length 1024) 0)

/-- Drive `poll` over a file source to exhaustion, collecting the yielded
chunks (`fuel` bounds the recursion; `c.length + 1` pulls always reach the
zero read). -/
def runAux : Nat → List Nat → List (List Nat)
  | 0, _ => []
  | fuel + 1, c =>
    match poll (filePollRead c) with
    | .readySome chunk => chunk :: runAux fuel (c.drop 1024)
    | _ => []

/-- All chunks a `ByteStream` over a file with content `c` yields before it
terminates. -/
def run (c : List Nat) : List (List Nat) := runAux (c.length + 1) c

end ByteStream

/-! ## HTTP model (`main.rs`)

Only the pieces of hyper's types that `serve_req` touches are modelled: the
method, the URI path (as its byte string, because the code slices it at a
byte index), and the three headers the code reads.  Header lookup in hyper
is by (case-insensitive) standard name; a header map is embedded as the
three optional values. -/

/-- Request methods (`req.method() == Method::GET` is the only use). -/
inductive Method where
  | GET | POST | HEAD | PUT | DELETE | OPTIONS
deriving DecidableEq

/-- The header values `serve_req` reads.  `upgrade` models
`headers().contains_key(UPGRADE)` plus the (unused) value. -/
structure Headers where
  upgrade : Option String
  secWebSocketVersion : Option String
  secWebSocketKey : Option String

/-- An inbound request: method, URI path bytes, headers. -/
structure Request where
  method : Method
  path : List Nat
  headers : Headers

/-- A response body: a fixed text (`Body::from(..)`) or the chunk sequence of
a wrapped `ByteStream` (`Body::wrap_stream(..)`). -/
inductive RespBody where
  | text (s : String)
  | stream (chunks : List (List Nat))
deriving DecidableEq

/-- A response: status code, headers in the order the builder adds them,
body. -/
structure Response where
  status : Nat
  headers : List (String × String)
  body : RespBody
deriving DecidableEq

/-- Side effects of `serve_req` other than the response: spawning the
WebSocket task, attempting to open a file, logging an error. -/
inductive Effect where
  | spawnedUpgradeTask
  | openedFile (path : List Nat)
  | loggedError (msg : String)
deriving DecidableEq

/-! ### Byte-string slicing (`&filename[1..]`)

Rust's `&s[1..]` panics when the byte index is out of range or not a char
boundary (`str::is_char_boundary`: the index equals 0 or the length, or the
byte there is not a UTF-8 continuation byte). -/

/-- Rust `str::is_char_boundary` at index `i` of byte string `p`. -/
def isCharBoundary (p : List Nat) (i : Nat) : Bool :=
  i = 0 || i = p.length || (match p.get? i with
    | some b => decide (b < 128 ∨ 192 ≤ b)
    | none => false)

/-- Rust `&s[i..]`: `none` models the panic on an out-of-range or
non-boundary index. -/
def sliceFrom (p : List Nat) (i : Nat) : Option (List Nat) :=
  if i ≤ p.length ∧ isCharBoundary p i then some (p.drop i) else none

/-- UTF-8 encoding of one Unicode scalar value (a Rust `str` is by
construction the concatenation of such encodings, which is what makes the
byte after an ASCII byte a char boundary). -/
def utf8EncodeChar (c : Nat) : List Nat :=
  if c < 128 then [c]
  else if c < 2048 then [192 + c / 64, 128 + c % 64]
  else if c < 65536 then [224 + c / 4096, 128 + c / 64 % 64, 128 + c % 64]
  else [240 + c / 262144, 128 + c / 4096 % 64, 128 + c / 64 % 64, 128 + c % 64]

/-- UTF-8 encoding of a sequence of scalar values: the byte strings that are
valid Rust `str` contents. -/
def utf8Encode (cs : List Nat) : List Nat := (cs.map utf8EncodeChar).flatten

/-! ### `PathBuf::push` and `Path::extension` -/

/-- `PathBuf::push` on Unix: an absolute argument replaces the whole path;
otherwise a `/` separator is inserted unless one is already trailing. -/
def pathPush (root : List Nat) (p : List Nat) : List Nat :=
  if p.head? = some 47 then p
  else if root.getLast? = some 47 then root ++ p
  else root ++ 47 :: p

/-- The final component of a path (after the last `/`). -/
def fileNameOf (p : List Nat) : List Nat :=
  (p.reverse.takeWhile (fun b => b ≠ 47)).reverse

/-- `Path::extension`: the part of the file name after its last `.`, absent
when there is no dot or the only dot leads the file name. -/
def extensionOf (p : List Nat) : Option (List Nat) :=
  let f := fileNameOf p
  let r := f.reverse.takeWhile (fun b => b ≠ 46)
  if r.length = f.length then none
  else if f.length - 1 - r.length = 0 then none
  else some r.reverse

/-- `STATIC_FILES` constant of main.rs, as path bytes. -/
def STATIC_FILES : List Nat := stringBytes "/www"

/-! ### `serve_req` -/

/-- `serve_req` (main.rs lines 55-110).  `root` is the `PathBuf` argument,
`fs` models `File::open` (`Except` error = the open failing with that
message), `getMime` models the external `get_mime_type_str` collaborator.
The result is the response paired with the side effects in order; `none`
models a panic (the only possible one: `&filename[1..]` on a bad index). -/
def serve_req (req : Request) (root : List Nat)
    (fs : List Nat → Except String (List Nat)) (getMime : List Nat → Option String) :
    Option (Response × List Effect) :=
  if req.method = Method.GET then
    match req.headers.upgrade with
    | some _ =>
      if req.headers.secWebSocketVersion = some "13" then
        match req.headers.secWebSocketKey with
        | some key =>
          some ({ status := 101,
                  headers := [("Upgrade", "websocket"), ("Connection", "Upgrade"),
                    ("Sec-WebSocket-Accept", computeAcceptToken key)],
                  body := .text "Switching protocols" },
                [.spawnedUpgradeTask])
        | none =>
          some ({ status := 400, headers := [], body := .text "Missing Sec-WebSocket-Key" }, [])
      else
        some ({ status := 400, headers := [], body := .text "Unknown WebSocket version" }, [])
    | none =>
      match sliceFrom req.path 1 with
      | none => none
      | some stripped =>
        let opened := pathPush root stripped
        match fs opened with
        | .ok content =>
          some ({ status := 200,
                  headers := match (extensionOf req.path).bind getMime with
                    | some m => [("Content-Type", m)]
                    | none => [],
                  body := .stream (ByteStream.run content) },
                [.openedFile opened])
        | .error e =>
          some ({ status := 404, headers := [], body := .text "Not Found" },
                [.openedFile opened, .loggedError e])
  else
    some ({ status := 405, headers := [], body := .text "Only GET Allowed!" }, [])

/-! ## Helper lemmas -/

/-- A non-empty file source's single read yields the first (up to) 1024
bytes as the chunk. -/
theorem poll_file_nonempty (x : Nat) (xs : List Nat) :
    ByteStream.poll (ByteStream.filePollRead (x :: xs)) =
      .readySome ((x :: xs).take 1024) := by
  have hmin : min (x :: xs).length 1024 ≠ 0 := by
    simp only [List.length_cons]
    omega
  have hlen : ((x :: xs).take 1024).length = min (x :: xs).length 1024 := by
    rw [List.length_take, Nat.min_comm]
  simp only [ByteStream.poll, ByteStream.filePollRead, if_neg hmin]
  rw [List.take_left' hlen]

/-- Driving the stream over a file source reproduces the file's bytes. -/
theorem runAux_flatten (fuel : Nat) : ∀ c : List Nat, c.length < fuel →
    (ByteStream.runAux fuel c).flatten = c := by
  induction fuel with
  | zero => exact fun c hc => absurd hc (Nat.not_lt_zero _)
  | succ fuel ih =>
    intro c hc
    match c with
    | [] => rfl
    | x :: xs =>
      have h1 : ByteStream.runAux (fuel + 1) (x :: xs)
          = (x :: xs).take 1024 :: ByteStream.runAux fuel ((x :: xs).drop 1024) := by
        rw [ByteStream.runAux, poll_file_nonempty]
      have ih' : (ByteStream.runAux fuel ((x :: xs).drop 1024)).flatten
          = (x :: xs).drop 1024 := by
        apply ih
        rw [List.length_drop]
        simp only [List.length_cons] at hc ⊢
        omega
      rw [h1, List.flatten_cons, ih', List.take_append_drop]

/-- A character's UTF-8 encoding is non-empty and starts with a non-
continuation byte. -/
theorem utf8EncodeChar_shape (c : Nat) :
    ∃ d ds, utf8EncodeChar c = d :: ds ∧ (d < 128 ∨ 192 ≤ d) := by
  unfold utf8EncodeChar
  by_cases h1 : c < 128
  · exact ⟨c, [], by rw [if_pos h1], Or.inl h1⟩
  · rw [if_neg h1]
    by_cases h2 : c < 2048
    · exact ⟨192 + c / 64, _, by rw [if_pos h2], Or.inr (by omega)⟩
    · rw [if_neg h2]
      by_cases h3 : c < 65536
      · exact ⟨224 + c / 4096, _, by rw [if_pos h3], Or.inr (by omega)⟩
      · exact ⟨240 + c / 262144, _, by rw [if_neg h3], Or.inr (by omega)⟩

/-! ## The claims -/

set_option maxRecDepth 10000 in
/-- Claim C1: the accept token is base64 of the SHA-1 digest of the client
key concatenated with the fixed GUID; on the RFC 6455 test vector
`"dGhlIHNhbXBsZSBub25jZQ=="` it equals `"s3pPLMBiTxaQ9kYGzzhZRbK+xOo="`;
and the computation is deterministic. -/
theorem acceptToken_spec :
    (∀ k : String, computeAcceptToken k =
      bytesString (base64Encode (sha1 (stringBytes k ++ stringBytes WEBSOCKET_MAGIC)))) ∧
    computeAcceptToken "dGhlIHNhbXBsZSBub25jZQ==" = "s3pPLMBiTxaQ9kYGzzhZRbK+xOo=" ∧
    (∀ k₁ k₂ : String, k₁ = k₂ → computeAcceptToken k₁ = computeAcceptToken k₂) :=
  ⟨fun _ => rfl, by decide, fun _ _ h => congrArg computeAcceptToken h⟩

/-- Witness for C1: determinism discharged on a concrete key. -/
theorem acceptToken_spec_witness :
    Cellardoor.computeAcceptToken "k" = Cellardoor.computeAcceptToken "k" :=
  acceptToken_spec.2.2 "k" "k" rfl

/-- Claim C6: a non-GET request is answered 405 with body
"Only GET Allowed!" and nothing else happens (no file open, no upgrade
spawn, no log). -/
theorem method_gate (req : Request) (root : List Nat)
    (fs : List Nat → Except String (List Nat)) (getMime : List Nat → Option String)
    (hm : req.method ≠ Method.GET) :
    serve_req req root fs getMime =
      some ({ status := 405, headers := [], body := .text "Only GET Allowed!" }, []) := by
  rw [serve_req, if_neg hm]

/-- Witness for C6 at a concrete POST request. -/
theorem method_gate_witness :
    serve_req ⟨.POST, stringBytes "/index.html", ⟨none, none, none⟩⟩
      STATIC_FILES (fun _ => .error "e") (fun _ => none) =
      some ({ status := 405, headers := [], body := .text "Only GET Allowed!" }, []) :=
  method_gate _ _ _ _ (by decide)

/-- Claim C7: a GET without an Upgrade header whose resolved path fails to
open (whatever the error) is answered 404 with body "Not Found", and the
underlying error is logged. -/
theorem open_failure_404 (req : Request) (root : List Nat)
    (fs : List Nat → Except String (List Nat)) (getMime : List Nat → Option String)
    (stripped : List Nat) (e : String)
    (hm : req.method = Method.GET) (hu : req.headers.upgrade = none)
    (hs : sliceFrom req.path 1 = some stripped)
    (hf : fs (pathPush root stripped) = .error e) :
    serve_req req root fs getMime =
      some ({ status := 404, headers := [], body := .text "Not Found" },
        [.openedFile (pathPush root stripped), .loggedError e]) := by
  simp only [serve_req, if_pos hm, hu, hs, hf]

/-- Witness for C7: a concrete missing file. -/
theorem open_failure_404_witness :
    serve_req ⟨.GET, stringBytes "/missing.txt", ⟨none, none, none⟩⟩
      STATIC_FILES (fun _ => .error "No such file or directory (os error 2)") (fun _ => none) =
      some ({ status := 404, headers := [], body := .text "Not Found" },
        [.openedFile (pathPush STATIC_FILES (stringBytes "missing.txt")),
         .loggedError "No such file or directory (os error 2)"]) :=
  open_failure_404 _ _ _ _ (stringBytes "missing.txt") _ rfl rfl (by decide) rfl

/-- Claim C4: the concatenation of all chunks the adapter yields equals the
source's exact byte content, for every content length; hence a GET of an
existing file is a 200 response whose concatenated body bytes are the
file's content. -/
theorem stream_round_trip :
    (∀ c : List Nat, (ByteStream.run c).flatten = c) ∧
    (∀ (req : Request) (root : List Nat) (fs : List Nat → Except String (List Nat))
      (getMime : List Nat → Option String) (stripped content : List Nat),
      req.method = Method.GET → req.headers.upgrade = none →
      sliceFrom req.path 1 = some stripped → fs (pathPush root stripped) = .ok content →
      serve_req req root fs getMime =
        some ({ status := 200,
                headers := match (extensionOf req.path).bind getMime with
                  | some m => [("Content-Type", m)]
                  | none => [],
                body := .stream (ByteStream.run content) },
          [.openedFile (pathPush root stripped)]) ∧
      (ByteStream.run content).flatten = content) := by
  refine ⟨fun c => runAux_flatten _ c (Nat.lt_succ_self _), ?_⟩
  intro req root fs getMime stripped content hm hu hs hf
  exact ⟨by simp only [serve_req, if_pos hm, hu, hs, hf],
    runAux_flatten _ content (Nat.lt_succ_self _)⟩

/-- Witness for C4: a three-byte file round-trips through the stream and the
200 response. -/
theorem stream_round_trip_witness :
    serve_req ⟨.GET, stringBytes "/a.bin", ⟨none, none, none⟩⟩ STATIC_FILES
        (fun _ => .ok [7, 8, 9]) (fun _ => none) =
      some ({ status := 200, headers := [],
              body := .stream (ByteStream.run [7, 8, 9]) },
        [.openedFile (pathPush STATIC_FILES (stringBytes "a.bin"))]) ∧
    (ByteStream.run [7, 8, 9]).flatten = [7, 8, 9] :=
  stream_round_trip.2 _ _ _ _ (stringBytes "a.bin") [7, 8, 9] rfl rfl (by decide) rfl

/-- Claim C5: a yielded chunk is non-empty and at most 1024 bytes; each pull
consumes exactly one underlying read; a zero-byte read yields clean end of
stream; a read error propagates as the stream's terminal error. -/
theorem poll_contract :
    (∀ (n : Nat) (buf chunk : List Nat), n ≤ 1024 → buf.length = 1024 →
      ByteStream.poll (.ready n buf) = .readySome chunk →
      chunk ≠ [] ∧ chunk.length ≤ 1024) ∧
    (∀ buf, ByteStream.poll (.ready 0 buf) = .readyNone) ∧
    (∀ e, ByteStream.poll (.ioError e) = .err e) ∧
    (∀ trace, (ByteStream.pollN trace).length = trace.length) ∧
    (∀ r rest, ByteStream.pollN (r :: rest) = ByteStream.poll r :: ByteStream.pollN rest) := by
  refine ⟨?_, fun buf => rfl, fun e => rfl, ?_, fun r rest => rfl⟩
  · intro n buf chunk hn hbuf h
    by_cases h0 : n = 0
    · rw [ByteStream.poll, if_pos h0] at h
      exact absurd h (by simp)
    · rw [ByteStream.poll, if_neg h0] at h
      have hchunk : chunk = buf.take n := by
        injection h with h'
        exact h'.symm
      subst hchunk
      constructor
      · apply List.ne_nil_of_length_pos
        rw [List.length_take, hbuf]
        omega
      · rw [List.length_take, hbuf]
        omega
  · intro trace
    induction trace with
    | nil => rfl
    | cons r rest ih => simp [ByteStream.pollN, ih]

/-- Witness for C5: a one-byte read out of the 1024-byte buffer yields the
singleton chunk. -/
theorem poll_contract_witness :
    ([0] : List Nat) ≠ [] ∧ ([0] : List Nat).length ≤ 1024 :=
  poll_contract.1 1 (List.replicate 1024 0) [0] (by decide)
    (List.length_replicate 1024 0) rfl

/-- Claim C3: a GET upgrade request that passes validation (version exactly
"13", key present) is answered 101 with headers `Upgrade: websocket`,
`Connection: Upgrade` and `Sec-WebSocket-Accept` equal to the accept token
of the request's key. -/
theorem upgrade_success_response (req : Request) (root : List Nat)
    (fs : List Nat → Except String (List Nat)) (getMime : List Nat → Option String)
    (u key : String)
    (hm : req.method = Method.GET) (hu : req.headers.upgrade = some u)
    (hv : req.headers.secWebSocketVersion = some "13")
    (hk : req.headers.secWebSocketKey = some key) :
    serve_req req root fs getMime =
      some ({ status := 101,
              headers := [("Upgrade", "websocket"), ("Connection", "Upgrade"),
                ("Sec-WebSocket-Accept", computeAcceptToken key)],
              body := .text "Switching protocols" }, [.spawnedUpgradeTask]) := by
  simp only [serve_req, if_pos hm, hu, hk]
  rw [if_pos hv]

/-- Witness for C3: the RFC 6455 handshake request. -/
theorem upgrade_success_response_witness :
    serve_req
        ⟨.GET, stringBytes "/", ⟨some "websocket", some "13", some "dGhlIHNhbXBsZSBub25jZQ=="⟩⟩
        STATIC_FILES (fun _ => .error "e") (fun _ => none) =
      some ({ status := 101,
              headers := [("Upgrade", "websocket"), ("Connection", "Upgrade"),
                ("Sec-WebSocket-Accept", computeAcceptToken "dGhlIHNhbXBsZSBub25jZQ==")],
              body := .text "Switching protocols" }, [.spawnedUpgradeTask]) :=
  upgrade_success_response _ _ _ _ "websocket" _ rfl rfl rfl rfl

/-- Claim C9: with version "13", any key value whatsoever (empty, non-base64)
is accepted — the 101 response carries the token computed from the raw
value, and the key content is never validated. -/
theorem any_key_accepted (req : Request) (root : List Nat)
    (fs : List Nat → Except String (List Nat)) (getMime : List Nat → Option String)
    (u key : String)
    (hm : req.method = Method.GET) (hu : req.headers.upgrade = some u)
    (hv : req.headers.secWebSocketVersion = some "13")
    (hk : req.headers.secWebSocketKey = some key) :
    ∃ resp effs, serve_req req root fs getMime = some (resp, effs) ∧
      resp.status = 101 ∧
      resp.headers = [("Upgrade", "websocket"), ("Connection", "Upgrade"),
        ("Sec-WebSocket-Accept", computeAcceptToken key)] ∧
      effs = [Effect.spawnedUpgradeTask] := by
  refine ⟨{ status := 101,
            headers := [("Upgrade", "websocket"), ("Connection", "Upgrade"),
              ("Sec-WebSocket-Accept", computeAcceptToken key)],
            body := .text "Switching protocols" }, [Effect.spawnedUpgradeTask],
    ?_, rfl, rfl, rfl⟩
  simp only [serve_req, if_pos hm, hu, hk]
  rw [if_pos hv]

/-- Witness for C9: the empty key (not valid base64 of 16 bytes) is
accepted. -/
theorem any_key_accepted_witness :
    ∃ resp effs,
      serve_req ⟨.GET, stringBytes "/", ⟨some "websocket", some "13", some ""⟩⟩
          STATIC_FILES (fun _ => .error "e") (fun _ => none) = some (resp, effs) ∧
      resp.status = 101 ∧
      resp.headers = [("Upgrade", "websocket"), ("Connection", "Upgrade"),
        ("Sec-WebSocket-Accept", computeAcceptToken "")] ∧
      effs = [Effect.spawnedUpgradeTask] :=
  any_key_accepted _ _ _ _ "websocket" "" rfl rfl rfl rfl

/-- Claim C2 counterexample: a GET upgrade request with a key present but
the Sec-WebSocket-Version header absent is rejected 400 "Unknown WebSocket
version" (the code checks the version first and treats an absent version
like a wrong one), where the claim requires success. -/
theorem validate_version_absent_rejected :
    serve_req ⟨.GET, stringBytes "/", ⟨some "websocket", none, some "abc"⟩⟩
        STATIC_FILES (fun _ => .error "e") (fun _ => none) =
      some ({ status := 400, headers := [], body := .text "Unknown WebSocket version" }, []) :=
  rfl

/-- Claim C2 amended: on a GET bearing an Upgrade header, the outcome is
"Unknown WebSocket version" iff Sec-WebSocket-Version is not exactly "13"
(absent included); "Missing Sec-WebSocket-Key" iff the version is exactly
"13" and the key is absent; and success with the raw key otherwise. -/
theorem validate_upgrade_cases (req : Request) (root : List Nat)
    (fs : List Nat → Except String (List Nat)) (getMime : List Nat → Option String)
    (u : String)
    (hm : req.method = Method.GET) (hu : req.headers.upgrade = some u) :
    (serve_req req root fs getMime =
        some ({ status := 400, headers := [], body := .text "Unknown WebSocket version" }, [])
      ↔ req.headers.secWebSocketVersion ≠ some "13") ∧
    (serve_req req root fs getMime =
        some ({ status := 400, headers := [], body := .text "Missing Sec-WebSocket-Key" }, [])
      ↔ req.headers.secWebSocketVersion = some "13" ∧ req.headers.secWebSocketKey = none) ∧
    (∀ key, req.headers.secWebSocketVersion = some "13" →
      req.headers.secWebSocketKey = some key →
      serve_req req root fs getMime =
        some ({ status := 101,
                headers := [("Upgrade", "websocket"), ("Connection", "Upgrade"),
                  ("Sec-WebSocket-Accept", computeAcceptToken key)],
                body := .text "Switching protocols" }, [.spawnedUpgradeTask])) := by
  by_cases hv : req.headers.secWebSocketVersion = some "13"
  · cases hk : req.headers.secWebSocketKey with
    | none =>
      refine ⟨?_, ?_, ?_⟩
      · simp [serve_req, hm, hu, hv, hk]
      · simp [serve_req, hm, hu, hv, hk]
      · intro key hv' hk'
        exact absurd hk' (by simp)
    | some key =>
      refine ⟨?_, ?_, ?_⟩
      · simp [serve_req, hm, hu, hv, hk]
      · simp [serve_req, hm, hu, hv, hk]
      · intro key' hv' hk'
        injection hk' with h
        subst h
        simp only [serve_req, if_pos hm, hu, hk]
        rw [if_pos hv]
  · refine ⟨?_, ?_, ?_⟩
    · simp [serve_req, hm, hu, hv]
    · simp [serve_req, hm, hu, hv]
    · intro key hv' _
      exact absurd hv' hv

/-- Witness for the amended C2 at a concrete request with version "12". -/
theorem validate_upgrade_cases_witness :
    (serve_req ⟨.GET, stringBytes "/", ⟨some "websocket", some "12", some "abc"⟩⟩
        STATIC_FILES (fun _ => .error "e") (fun _ => none) =
        some ({ status := 400, headers := [], body := .text "Unknown WebSocket version" }, [])
      ↔ (⟨some "websocket", some "12", some "abc"⟩ : Headers).secWebSocketVersion ≠ some "13") ∧
    (serve_req ⟨.GET, stringBytes "/", ⟨some "websocket", some "12", some "abc"⟩⟩
        STATIC_FILES (fun _ => .error "e") (fun _ => none) =
        some ({ status := 400, headers := [], body := .text "Missing Sec-WebSocket-Key" }, [])
      ↔ (⟨some "websocket", some "12", some "abc"⟩ : Headers).secWebSocketVersion = some "13" ∧
        (⟨some "websocket", some "12", some "abc"⟩ : Headers).secWebSocketKey = none) ∧
    (∀ key,
      (⟨some "websocket", some "12", some "abc"⟩ : Headers).secWebSocketVersion = some "13" →
      (⟨some "websocket", some "12", some "abc"⟩ : Headers).secWebSocketKey = some key →
      serve_req ⟨.GET, stringBytes "/", ⟨some "websocket", some "12", some "abc"⟩⟩
          STATIC_FILES (fun _ => .error "e") (fun _ => none) =
        some ({ status := 101,
                headers := [("Upgrade", "websocket"), ("Connection", "Upgrade"),
                  ("Sec-WebSocket-Accept", computeAcceptToken key)],
                body := .text "Switching protocols" }, [.spawnedUpgradeTask])) :=
  validate_upgrade_cases _ _ _ _ "websocket" rfl rfl

/-- Claim C8 counterexample: for request path "//x" the stripped path "/x"
is itself absolute, so `PathBuf::push` replaces the root: the path opened is
"/x", not the root with the stripped path concatenated onto it (under
either reading of concatenation). -/
theorem path_concat_counterexample :
    serve_req ⟨.GET, [47, 47, 120], ⟨none, none, none⟩⟩ STATIC_FILES
        (fun _ => .error "e") (fun _ => none) =
      some ({ status := 404, headers := [], body := .text "Not Found" },
        [.openedFile [47, 120], .loggedError "e"]) ∧
    ([47, 120] : List Nat) ≠ STATIC_FILES ++ [47, 120] ∧
    ([47, 120] : List Nat) ≠ STATIC_FILES ++ 47 :: [47, 120] :=
  ⟨rfl, by decide, by decide⟩

/-- Claim C8 amended: the opened path is the root with the stripped request
path pushed onto it — separator-joined when the stripped path is relative,
and the stripped path alone (replacing the root) when it itself begins with
a separator; no canonicalization or containment check is applied, a ".."
segment passing through literally and hence resolving outside the root. -/
theorem path_resolution (req : Request) (root : List Nat)
    (fs : List Nat → Except String (List Nat)) (getMime : List Nat → Option String)
    (stripped : List Nat)
    (hm : req.method = Method.GET) (hu : req.headers.upgrade = none)
    (hs : sliceFrom req.path 1 = some stripped) :
    (∃ resp effs, serve_req req root fs getMime = some (resp, effs) ∧
      Effect.openedFile (pathPush root stripped) ∈ effs) ∧
    (stripped.head? ≠ some 47 → root.getLast? ≠ some 47 →
      pathPush root stripped = root ++ 47 :: stripped) ∧
    (stripped.head? = some 47 → pathPush root stripped = stripped) ∧
    pathPush STATIC_FILES (stringBytes "../etc/passwd") =
      stringBytes "/www/../etc/passwd" := by
  refine ⟨?_, ?_, ?_, by decide⟩
  · cases h : fs (pathPush root stripped) with
    | ok content =>
      refine ⟨{ status := 200,
                headers := match (extensionOf req.path).bind getMime with
                  | some m => [("Content-Type", m)]
                  | none => [],
                body := .stream (ByteStream.run content) },
        [.openedFile (pathPush root stripped)], ?_, ?_⟩
      · simp only [serve_req, if_pos hm, hu, hs, h]
      · simp
    | error e =>
      refine ⟨{ status := 404, headers := [], body := .text "Not Found" },
        [.openedFile (pathPush root stripped), .loggedError e], ?_, ?_⟩
      · simp only [serve_req, if_pos hm, hu, hs, h]
      · simp
  · intro h1 h2
    rw [pathPush, if_neg h1, if_neg h2]
  · intro h1
    rw [pathPush, if_pos h1]

/-- Witness for the amended C8 at the request path "/d.txt". -/
theorem path_resolution_witness :
    (∃ resp effs,
      serve_req ⟨.GET, stringBytes "/d.txt", ⟨none, none, none⟩⟩ STATIC_FILES
          (fun _ => .ok []) (fun _ => none) = some (resp, effs) ∧
      Effect.openedFile (pathPush STATIC_FILES (stringBytes "d.txt")) ∈ effs) ∧
    ((stringBytes "d.txt").head? ≠ some 47 → STATIC_FILES.getLast? ≠ some 47 →
      pathPush STATIC_FILES (stringBytes "d.txt") = STATIC_FILES ++ 47 :: stringBytes "d.txt") ∧
    ((stringBytes "d.txt").head? = some 47 →
      pathPush STATIC_FILES (stringBytes "d.txt") = stringBytes "d.txt") ∧
    pathPush STATIC_FILES (stringBytes "../etc/passwd") =
      stringBytes "/www/../etc/passwd" :=
  path_resolution _ _ _ _ (stringBytes "d.txt") rfl rfl (by decide)

/-- Claim C10: slicing the path at byte 1 is well-defined on every string
that begins with an ASCII '/' (it strips that byte), and panics on the
empty path, so the no-Upgrade GET branch is total only for non-empty
request paths. -/
theorem slice_totality :
    (∀ cs : List Nat, sliceFrom (utf8Encode (47 :: cs)) 1 = some (utf8Encode cs)) ∧
    sliceFrom [] 1 = none ∧
    (∀ (req : Request) (root : List Nat) (fs : List Nat → Except String (List Nat))
      (getMime : List Nat → Option String), req.method = Method.GET →
      req.headers.upgrade = none → req.path = [] →
      serve_req req root fs getMime = none) := by
  refine ⟨?_, rfl, ?_⟩
  · intro cs
    have he : utf8Encode (47 :: cs) = 47 :: utf8Encode cs := by
      simp [utf8Encode, utf8EncodeChar]
    rw [he]
    cases hcs : cs with
    | nil => rfl
    | cons c cs' =>
      obtain ⟨d, ds, hd, hgood⟩ := utf8EncodeChar_shape c
      have he2 : utf8Encode (c :: cs') = d :: (ds ++ utf8Encode cs') := by
        simp [utf8Encode, hd]
      rw [he2]
      have hb : isCharBoundary (47 :: d :: (ds ++ utf8Encode cs')) 1 = true := by
        simp only [isCharBoundary, List.get?_cons_succ, List.get?_cons_zero,
          Bool.or_eq_true, decide_eq_true_eq]
        tauto
      rw [sliceFrom, if_pos ⟨by simp, hb⟩]
      rfl
  · intro req root fs getMime hm hu hp
    simp [serve_req, hm, hu, hp, sliceFrom]

/-- Witness for C10: panic of the file branch on the empty path. -/
theorem slice_totality_witness :
    serve_req ⟨.GET, [], ⟨none, none, none⟩⟩ STATIC_FILES
      (fun _ => .error "e") (fun _ => none) = none :=
  slice_totality.2.2 _ _ _ _ rfl rfl rfl

end Cellardoor
